import Mathlib

/-!
Verification of the budget/expense aggregation and classification engine of a
personal budgeting application.  The embedding below follows the source code:
the Streamlit app file (its "50/30/20 Report" page, `display_budget_vs_actual`,
`dime_calculator`, and the flat-file budget page) and `database.py`
(`save_budget`, `update_expense`, `delete_expense`).  Monetary amounts are
modelled as exact rationals.
-/

namespace BudgetApp

/-- The three spending buckets of the 50/30/20 allocation rule. -/
inductive Bucket where
  | Needs
  | Wants
  | Savings
deriving DecidableEq, Repr

/-- A budget row as stored by `database.py` (table `budgets`):
(user_id, month, category, amount), unique per (user_id, month, category). -/
structure BudgetRow where
  user_id : Nat
  month : String
  category : String
  amount : ℚ
deriving DecidableEq, Repr

/-- An expense row as stored by `database.py` (table `expenses`). -/
structure ExpenseRow where
  id : Nat
  category : String
  amount : ℚ
  timestamp : String
deriving DecidableEq, Repr

/-- The Needs category list of the report: `needs = ["Housing", ...]`. -/
def needsList : List String :=
  ["Housing", "Utilities", "Groceries", "Transportation", "Healthcare",
   "Insurance", "Debt Payments"]

/-- The Wants category list of the report: `wants = ["Entertainment"]`. -/
def wantsList : List String := ["Entertainment"]

/-- The Savings category list of the report: `savings = ["Savings", "Education"]`. -/
def savingsList : List String := ["Savings", "Education"]

/-- The classifier: the if/elif/elif/else chain of the report loop
(`if row["category"] in needs: ... elif ... in wants: ... elif ... in savings:
... else: Wants`). Total over all strings; unmatched categories go to Wants. -/
def classify (category : String) : Bucket :=
  if category ∈ needsList then Bucket.Needs
  else if category ∈ wantsList then Bucket.Wants
  else if category ∈ savingsList then Bucket.Savings
  else Bucket.Wants

/-- The per-bucket running sums of the report loop
(`categorized = {"Needs": 0, "Wants": 0, "Savings": 0}`). -/
structure Categorized where
  needsTotal : ℚ
  wantsTotal : ℚ
  savingsTotal : ℚ
deriving DecidableEq, Repr

/-- One iteration of the report loop: add the row amount to the bucket its
category classifies into (unmatched categories fall into Wants, as the
`else` branch of the source loop does). -/
def addToBucket (acc : Categorized) (row : ExpenseRow) : Categorized :=
  match classify row.category with
  | Bucket.Needs => { acc with needsTotal := acc.needsTotal + row.amount }
  | Bucket.Wants => { acc with wantsTotal := acc.wantsTotal + row.amount }
  | Bucket.Savings => { acc with savingsTotal := acc.savingsTotal + row.amount }

/-- The full report loop `for row in actuals: ...` starting from zeros. -/
def categorize (rows : List ExpenseRow) : Categorized :=
  rows.foldl addToBucket ⟨0, 0, 0⟩

/-- The total budget of the scope: `total_budget = sum([b["amount"] for b in budget])`. -/
def totalBudget (budget : List BudgetRow) : ℚ :=
  (budget.map BudgetRow.amount).sum

/-- The Needs limit: `limits["Needs"] = total_budget * 0.50`. -/
def limitNeeds (T : ℚ) : ℚ := T * (50 / 100)

/-- The Wants limit: `limits["Wants"] = total_budget * 0.30`. -/
def limitWants (T : ℚ) : ℚ := T * (30 / 100)

/-- The Savings limit: `limits["Savings"] = total_budget * 0.20`. -/
def limitSavings (T : ℚ) : ℚ := T * (20 / 100)

/-- The status chain of the report:
`if ratio <= 0.9: Under; elif ratio <= 1.0: At Limit; else: Over`. -/
def statusOfRatio (ratio : ℚ) : String :=
  if ratio ≤ 9 / 10 then "🟢 Under Budget"
  else if ratio ≤ 1 then "🟡 At Limit"
  else "🔴 Over Budget"

/-- One row of the analysis table built by the report
(`Category`, `Limit ($)`, `Actual ($)`, `Status`). -/
structure ReportRow where
  bucket : String
  limit : ℚ
  actual : ℚ
  status : String
deriving DecidableEq, Repr

/-- The 50/30/20 report page: if the total budget is 0 the page warns and
stops (`st.warning(...); st.stop()`) — modelled as `none`; otherwise it
computes the limits, classifies the expenses, and produces the analysis rows
in the fixed insertion order Needs, Wants, Savings of the `categorized` and
`limits` dicts (Python dicts iterate in insertion order). -/
def report (budget : List BudgetRow) (actuals : List ExpenseRow) :
    Option (List ReportRow) :=
  let T := totalBudget budget
  if T = 0 then none
  else
    let c := categorize actuals
    some
      [⟨"Needs", limitNeeds T, c.needsTotal,
          statusOfRatio (c.needsTotal / limitNeeds T)⟩,
       ⟨"Wants", limitWants T, c.wantsTotal,
          statusOfRatio (c.wantsTotal / limitWants T)⟩,
       ⟨"Savings", limitSavings T, c.savingsTotal,
          statusOfRatio (c.savingsTotal / limitSavings T)⟩]

/-- The per-category actual `actual_df[actual_df["category"] == cat]["amount"].sum()` — the sum of
the amounts of the expenses whose category equals `cat` (0 if none). -/
def actualFor (actual_df : List ExpenseRow) (cat : String) : ℚ :=
  ((actual_df.filter (fun r => r.category == cat)).map ExpenseRow.amount).sum

/-- The status assignment of `display_budget_vs_actual`:
`status = OK; if actual > budget: Over; elif actual > 0.9 * budget: Near`. -/
def bvaStatus (budget_amt actual_amt : ℚ) : String :=
  if actual_amt > budget_amt then "❌ Over Budget"
  else if actual_amt > 9 / 10 * budget_amt then "⚠️ Near Limit"
  else "✅ OK"

/-- One row of the comparison table of `display_budget_vs_actual`. -/
structure CompRow where
  category : String
  budgeted : ℚ
  actual : ℚ
  status : String
deriving DecidableEq, Repr

/-- The body of `display_budget_vs_actual`: one comparison row per budget row, pairing the
budgeted amount with the filtered sum of matching expenses and a status. -/
def display_budget_vs_actual (budget_df : List BudgetRow)
    (actual_df : List ExpenseRow) : List CompRow :=
  budget_df.map (fun row =>
    let actual_amt := actualFor actual_df row.category
    ⟨row.category, row.amount, actual_amt, bvaStatus row.amount actual_amt⟩)

/-- The estimator `dime_calculator(debt, income, years, mortgage, edu_cost, num_children) =
debt + (income * years) + mortgage + (edu_cost * num_children)`. -/
def dime_calculator (debt income years mortgage edu_cost num_children : ℚ) :
    ℚ :=
  debt + (income * years) + mortgage + (edu_cost * num_children)

/-- Does a budget row carry the given (user_id, month, category) key? -/
def keyMatch (user_id : Nat) (month category : String) (r : BudgetRow) :
    Bool :=
  r.user_id == user_id && r.month == month && r.category == category

/-- The key of a budget row, on which `database.py` declares
`UNIQUE(user_id, month, category)`. -/
def budgetKey (r : BudgetRow) : Nat × String × String :=
  (r.user_id, r.month, r.category)

/-- The upsert `save_budget`: `INSERT ... ON CONFLICT(user_id, month, category)
DO UPDATE SET amount = excluded.amount` — if a row with the key exists its
amount is replaced, otherwise a new row is inserted. -/
def save_budget (store : List BudgetRow) (user_id : Nat)
    (month category : String) (amount : ℚ) : List BudgetRow :=
  if store.any (keyMatch user_id month category) then
    store.map (fun r =>
      if keyMatch user_id month category r then { r with amount := amount }
      else r)
  else
    store ++ [⟨user_id, month, category, amount⟩]

/-- The update `update_expense`: `UPDATE expenses SET amount = ? WHERE id = ?` — every
row whose id matches gets the new amount; nothing is returned or checked, so
a non-matching id leaves the table unchanged with no signal. -/
def update_expense (store : List ExpenseRow) (expense_id : Nat)
    (new_amount : ℚ) : List ExpenseRow :=
  store.map (fun r =>
    if r.id == expense_id then { r with amount := new_amount } else r)

/-- The removal `delete_expense`: `DELETE FROM expenses WHERE id = ?` — every row whose
id matches is removed; nothing is returned or checked. -/
def delete_expense (store : List ExpenseRow) (expense_id : Nat) :
    List ExpenseRow :=
  store.filter (fun r => !(r.id == expense_id))

/-! ## Helper lemmas -/

theorem statusOfRatio_under (r : ℚ) (h : r ≤ 9 / 10) :
    statusOfRatio r = "🟢 Under Budget" := by
  simp [statusOfRatio, h]

theorem statusOfRatio_atLimit (r : ℚ) (h1 : 9 / 10 < r) (h2 : r ≤ 1) :
    statusOfRatio r = "🟡 At Limit" := by
  simp [statusOfRatio, not_le.2 h1, h2]

theorem statusOfRatio_over (r : ℚ) (h : 1 < r) :
    statusOfRatio r = "🔴 Over Budget" := by
  have h9 : ¬ r ≤ 9 / 10 := by linarith
  simp [statusOfRatio, h9, not_le.2 h]

/-! ## Claims -/

/-- C2: `classify` sends every category of the Needs list to Needs, of the
Wants list to Wants, of the Savings list to Savings, and every other string
(case-sensitive exact match) to Wants; it is total by construction, no input
is rejected. -/
theorem c2_classify_table :
    (∀ c ∈ needsList, classify c = Bucket.Needs) ∧
    (∀ c ∈ wantsList, classify c = Bucket.Wants) ∧
    (∀ c ∈ savingsList, classify c = Bucket.Savings) ∧
    (∀ c : String, c ∉ needsList → c ∉ wantsList → c ∉ savingsList →
      classify c = Bucket.Wants) := by
  refine ⟨by decide, by decide, by decide, ?_⟩
  intro c h1 h2 h3
  simp [classify, h1, h2, h3]

/-- Witness for C2 at the concrete unlisted category "Dining Out". -/
theorem c2_classify_table_witness : classify "Dining Out" = Bucket.Wants :=
  c2_classify_table.2.2.2 "Dining Out" (by decide) (by decide) (by decide)

/-- C4: whenever the total budget of the scope is 0 (in particular when there
are no budget rows at all), the 50/30/20 report stops with a prompt instead
of computing (`none`): no per-bucket statuses are produced and no division
is ever reached. -/
theorem c4_zero_total_budget (budget : List BudgetRow)
    (actuals : List ExpenseRow) (h : totalBudget budget = 0) :
    report budget actuals = none := by
  simp [report, h]

/-- Witness for C4: the empty budget list has total 0 and yields `none`. -/
theorem c4_zero_total_budget_witness :
    report [] [⟨1, "Housing", 25, "t0"⟩] = none :=
  c4_zero_total_budget [] [⟨1, "Housing", 25, "t0"⟩] (by simp [totalBudget])

/-- C8: `dime_calculator` returns exactly
debt + annual_income * years + mortgage + education_cost_per_child *
num_children for all non-negative inputs (years and children as naturals),
and in particular 700000 on the example input; it is a pure function, so it
has no side effects by construction. -/
theorem c8_dime_formula (debt income mortgage edu_cost : ℚ)
    (years num_children : ℕ) (hd : 0 ≤ debt) (hi : 0 ≤ income)
    (hm : 0 ≤ mortgage) (he : 0 ≤ edu_cost) :
    dime_calculator debt income years mortgage edu_cost num_children =
      debt + income * years + mortgage + edu_cost * num_children ∧
    dime_calculator 10000 50000 10 150000 20000 2 = 700000 := by
  constructor
  · rfl
  · norm_num [dime_calculator]

/-- Witness for C8 at the example input of the spec. -/
theorem c8_dime_formula_witness :
    dime_calculator 10000 50000 10 150000 20000 2 = 700000 :=
  (c8_dime_formula 10000 50000 150000 20000 10 2 (by norm_num) (by norm_num)
    (by norm_num) (by norm_num)).2

/-- The three bucket totals of the report loop always sum to the accumulator
totals plus the total amount of the remaining rows: the loop credits each row
to exactly one bucket. -/
theorem foldl_addToBucket_sum (rows : List ExpenseRow) (acc : Categorized) :
    (rows.foldl addToBucket acc).needsTotal +
      (rows.foldl addToBucket acc).wantsTotal +
      (rows.foldl addToBucket acc).savingsTotal =
    acc.needsTotal + acc.wantsTotal + acc.savingsTotal +
      (rows.map ExpenseRow.amount).sum := by
  induction rows generalizing acc with
  | nil => simp
  | cons r rs ih =>
    simp only [List.foldl_cons, List.map_cons, List.sum_cons]
    rw [ih]
    cases hc : classify r.category <;> simp [addToBucket, hc] <;> ring

/-- C5: the three per-bucket actual sums of the allocation report add up to
the total amount of all expenses in scope — every expense lands in exactly
one bucket, none dropped and none double-counted; consequently the actual
column of any produced report sums to the total expense amount. -/
theorem c5_buckets_preserve_total (actuals : List ExpenseRow) :
    (categorize actuals).needsTotal + (categorize actuals).wantsTotal +
      (categorize actuals).savingsTotal =
      (actuals.map ExpenseRow.amount).sum ∧
    ∀ budget rows, report budget actuals = some rows →
      (rows.map ReportRow.actual).sum = (actuals.map ExpenseRow.amount).sum := by
  have hsum :
      (categorize actuals).needsTotal + (categorize actuals).wantsTotal +
        (categorize actuals).savingsTotal =
        (actuals.map ExpenseRow.amount).sum := by
    have := foldl_addToBucket_sum actuals ⟨0, 0, 0⟩
    simpa [categorize] using this
  refine ⟨hsum, ?_⟩
  intro budget rows hrep
  by_cases hT : totalBudget budget = 0
  · simp [report, hT] at hrep
  · simp only [report, if_neg hT, Option.some.injEq] at hrep
    subst hrep
    simpa [add_assoc] using hsum

/-- Witness for C5 at a concrete budget and expense list. -/
theorem c5_buckets_preserve_total_witness :
    (([⟨"Needs", 50, 30, "🟢 Under Budget"⟩,
       ⟨"Wants", 30, 0, "🟢 Under Budget"⟩,
       ⟨"Savings", 20, 0, "🟢 Under Budget"⟩] :
        List ReportRow).map ReportRow.actual).sum =
      (([⟨7, "Groceries", 30, "t0"⟩] : List ExpenseRow).map
        ExpenseRow.amount).sum :=
  (c5_buckets_preserve_total [⟨7, "Groceries", 30, "t0"⟩]).2
    [⟨1, "2024-01", "Housing", 100⟩] _
    (by norm_num [report, totalBudget, categorize, addToBucket, classify,
      needsList, wantsList, savingsList, limitNeeds, limitWants, limitSavings,
      statusOfRatio])

/-- C1: in any produced 50/30/20 report, every row with positive limit L and
actual A carries the status determined by ratio = A / L: ratio ≤ 0.9 gives
"Under Budget", 0.9 < ratio ≤ 1.0 gives "At Limit", ratio > 1.0 gives
"Over Budget"; in particular A = 0.9·L gives "Under Budget", A = L gives
"At Limit", and any A > L gives "Over Budget" (statuses carry the emoji
prefixes of the source strings). -/
theorem c1_report_status (budget : List BudgetRow) (actuals : List ExpenseRow)
    (rows : List ReportRow) (hrep : report budget actuals = some rows)
    (row : ReportRow) (hrow : row ∈ rows) (hL : 0 < row.limit) :
    (row.actual / row.limit ≤ 9 / 10 → row.status = "🟢 Under Budget") ∧
    (9 / 10 < row.actual / row.limit ∧ row.actual / row.limit ≤ 1 →
      row.status = "🟡 At Limit") ∧
    (1 < row.actual / row.limit → row.status = "🔴 Over Budget") ∧
    (row.actual = 9 / 10 * row.limit → row.status = "🟢 Under Budget") ∧
    (row.actual = row.limit → row.status = "🟡 At Limit") ∧
    (row.limit < row.actual → row.status = "🔴 Over Budget") := by
  have hstat : row.status = statusOfRatio (row.actual / row.limit) := by
    by_cases hT : totalBudget budget = 0
    · simp [report, hT] at hrep
    · simp only [report, if_neg hT, Option.some.injEq] at hrep
      subst hrep
      simp only [List.mem_cons, List.not_mem_nil, or_false] at hrow
      rcases hrow with rfl | rfl | rfl <;> rfl
  refine ⟨?_, ?_, ?_, ?_, ?_, ?_⟩
  · intro h
    rw [hstat]
    exact statusOfRatio_under _ h
  · rintro ⟨h1, h2⟩
    rw [hstat]
    exact statusOfRatio_atLimit _ h1 h2
  · intro h
    rw [hstat]
    exact statusOfRatio_over _ h
  · intro h
    rw [hstat]
    apply statusOfRatio_under
    rw [h, mul_div_assoc, div_self hL.ne', mul_one]
  · intro h
    rw [hstat]
    have : row.actual / row.limit = 1 := by
      rw [h, div_self hL.ne']
    rw [this]
    exact statusOfRatio_atLimit 1 (by norm_num) le_rfl
  · intro h
    rw [hstat]
    exact statusOfRatio_over _ ((one_lt_div hL).2 h)

/-- Witness for C1 at a concrete over-budget Needs row: budget 100 gives the
Needs bucket limit 50, an expense of 120 on Housing exceeds it. -/
theorem c1_report_status_witness :
    ReportRow.status ⟨"Needs", 50, 120, "🔴 Over Budget"⟩ = "🔴 Over Budget" :=
  (c1_report_status [⟨1, "2024-01", "Housing", 100⟩]
    [⟨3, "Housing", 120, "t0"⟩]
    [⟨"Needs", 50, 120, "🔴 Over Budget"⟩,
     ⟨"Wants", 30, 0, "🟢 Under Budget"⟩,
     ⟨"Savings", 20, 0, "🟢 Under Budget"⟩]
    (by norm_num [report, totalBudget, categorize, addToBucket, classify,
      needsList, wantsList, savingsList, limitNeeds, limitWants, limitSavings,
      statusOfRatio])
    ⟨"Needs", 50, 120, "🔴 Over Budget"⟩ (by simp)
    (by norm_num)).2.2.2.2.2 (by norm_num)

/-- C3: in the category-level comparison, every produced row pairs the
budgeted amount B (non-negative at this boundary) with the sum A of the
matching expense amounts (0 when no expense matches), and carries status
"Over Budget" when A > B, "Near Limit" when 0.9·B < A ≤ B, and "OK" when
A ≤ 0.9·B; for B = 0, a positive A is "Over Budget" and A = 0 is "OK", and
no division is performed anywhere (the source compares with 0.9 * budget).
Statuses carry the emoji prefixes of the source strings. -/
theorem c3_budget_vs_actual (budget_df : List BudgetRow)
    (actual_df : List ExpenseRow) (row : CompRow)
    (hrow : row ∈ display_budget_vs_actual budget_df actual_df)
    (hB : 0 ≤ row.budgeted) :
    row.actual = actualFor actual_df row.category ∧
    (row.budgeted < row.actual → row.status = "❌ Over Budget") ∧
    (9 / 10 * row.budgeted < row.actual ∧ row.actual ≤ row.budgeted →
      row.status = "⚠️ Near Limit") ∧
    (row.actual ≤ 9 / 10 * row.budgeted → row.status = "✅ OK") ∧
    (row.budgeted = 0 →
      (0 < row.actual → row.status = "❌ Over Budget") ∧
      (row.actual = 0 → row.status = "✅ OK")) ∧
    ((∀ r ∈ actual_df, r.category ≠ row.category) → row.actual = 0) := by
  obtain ⟨src, hsrc, rfl⟩ := List.mem_map.1 hrow
  dsimp only at hB ⊢
  refine ⟨rfl, ?_, ?_, ?_, ?_, ?_⟩
  · intro h
    simp [bvaStatus, h]
  · rintro ⟨h1, h2⟩
    simp [bvaStatus, h1, not_lt.2 h2]
  · intro h
    have hnot1 : ¬ src.amount < actualFor actual_df src.category := by
      nlinarith
    simp [bvaStatus, hnot1, not_lt.2 h]
  · intro h0
    constructor
    · intro h
      simp [bvaStatus, h0, h]
    · intro h
      simp [bvaStatus, h0, h]
  · intro hnone
    have hfil : actual_df.filter (fun r => r.category == src.category) = [] := by
      rw [List.filter_eq_nil_iff]
      intro r hr
      simpa using hnone r hr
    simp [actualFor, hfil]

/-- Witness for C3: budget 100 on Housing against a single 89 Housing
expense gives status OK. -/
theorem c3_budget_vs_actual_witness :
    CompRow.status ⟨"Housing", 100, 89, "✅ OK"⟩ = "✅ OK" :=
  (c3_budget_vs_actual [⟨1, "2024-01", "Housing", 100⟩]
    [⟨4, "Housing", 89, "t0"⟩] ⟨"Housing", 100, 89, "✅ OK"⟩
    (by norm_num [display_budget_vs_actual, actualFor, bvaStatus])
    (by norm_num)).2.2.2.1 (by norm_num)

/-- Two iterations of the report loop commute: each row is credited to the
bucket of its own category only, and rational addition commutes. -/
theorem addToBucket_right_comm (z : Categorized) (r1 r2 : ExpenseRow) :
    addToBucket (addToBucket z r1) r2 = addToBucket (addToBucket z r2) r1 := by
  cases h1 : classify r1.category <;> cases h2 : classify r2.category <;>
    simp [addToBucket, h1, h2, Categorized.mk.injEq] <;> ring

/-- The per-bucket sums do not depend on the order of the expense rows. -/
theorem categorize_perm {l1 l2 : List ExpenseRow} (h : l1.Perm l2) :
    categorize l1 = categorize l2 :=
  h.foldl_eq' (fun x _ y _ z => addToBucket_right_comm z x y) ⟨0, 0, 0⟩

/-- C9: every produced 50/30/20 report lists its rows in the fixed order
Needs, Wants, Savings, the i-th status being the status of the i-th bucket
of that order; and the report is unchanged under any permutation of the
expense rows, so it is independent of insertion order. -/
theorem c9_report_order (budget : List BudgetRow)
    (actuals actuals2 : List ExpenseRow) (rows : List ReportRow)
    (hrep : report budget actuals = some rows)
    (hperm : actuals.Perm actuals2) :
    rows.map ReportRow.bucket = ["Needs", "Wants", "Savings"] ∧
    rows.map ReportRow.status =
      [statusOfRatio
         ((categorize actuals).needsTotal / limitNeeds (totalBudget budget)),
       statusOfRatio
         ((categorize actuals).wantsTotal / limitWants (totalBudget budget)),
       statusOfRatio
         ((categorize actuals).savingsTotal /
            limitSavings (totalBudget budget))] ∧
    report budget actuals2 = some rows := by
  by_cases hT : totalBudget budget = 0
  · simp [report, hT] at hrep
  · simp only [report, if_neg hT, Option.some.injEq] at hrep
    subst hrep
    refine ⟨rfl, rfl, ?_⟩
    simp only [report, if_neg hT, Option.some.injEq]
    rw [categorize_perm hperm]

/-- Witness for C9: a two-expense scope reported identically after swapping
the two expenses. -/
theorem c9_report_order_witness :
    report [⟨1, "2024-01", "Housing", 100⟩]
      [⟨6, "Entertainment", 40, "t1"⟩, ⟨5, "Housing", 20, "t0"⟩] =
      some [⟨"Needs", 50, 20, "🟢 Under Budget"⟩,
            ⟨"Wants", 30, 40, "🔴 Over Budget"⟩,
            ⟨"Savings", 20, 0, "🟢 Under Budget"⟩] :=
  (c9_report_order [⟨1, "2024-01", "Housing", 100⟩]
    [⟨5, "Housing", 20, "t0"⟩, ⟨6, "Entertainment", 40, "t1"⟩]
    [⟨6, "Entertainment", 40, "t1"⟩, ⟨5, "Housing", 20, "t0"⟩]
    [⟨"Needs", 50, 20, "🟢 Under Budget"⟩,
     ⟨"Wants", 30, 40, "🔴 Over Budget"⟩,
     ⟨"Savings", 20, 0, "🟢 Under Budget"⟩]
    (by simp [report, totalBudget, categorize, addToBucket, classify,
          needsList, wantsList, savingsList, limitNeeds, limitWants,
          limitSavings, statusOfRatio] <;> norm_num)
    (List.Perm.swap _ _ _)).2.2

/-- A row matches the key test exactly when its `budgetKey` is the key. -/
theorem keyMatch_iff (u : Nat) (m c : String) (r : BudgetRow) :
    keyMatch u m c r = true ↔ budgetKey r = (u, m, c) := by
  simp [keyMatch, budgetKey, Prod.ext_iff, and_assoc]

/-- Replacing the amount of the key-matching rows leaves every key as it
was. -/
theorem save_budget_map_keys (store : List BudgetRow) (u : Nat)
    (m c : String) (a : ℚ) :
    (store.map (fun r =>
        if keyMatch u m c r then { r with amount := a } else r)).map
      budgetKey = store.map budgetKey := by
  rw [List.map_map]
  apply List.map_congr_left
  intro r _
  by_cases h : keyMatch u m c r <;> simp [h, budgetKey]

/-- C6: `save_budget` is an upsert keyed by (user_id, month, category): on a
store whose keys are unique, saving keeps the keys unique (never two rows
with the same key); when the key already exists the row count is unchanged
and every row with that key now carries the new amount (replacement, not
accumulation); saving the same row twice equals saving it once; and from the
empty store a double save leaves exactly the one saved row. -/
theorem c6_save_budget_upsert (store : List BudgetRow) (u : Nat)
    (m c : String) (a : ℚ) (hnd : (store.map budgetKey).Nodup) :
    ((save_budget store u m c a).map budgetKey).Nodup ∧
    (store.any (keyMatch u m c) = true →
      (save_budget store u m c a).length = store.length ∧
      ∀ r ∈ save_budget store u m c a, keyMatch u m c r = true →
        r.amount = a) ∧
    save_budget (save_budget store u m c a) u m c a =
      save_budget store u m c a ∧
    save_budget (save_budget [] u m c a) u m c a = [⟨u, m, c, a⟩] := by
  refine ⟨?_, ?_, ?_, ?_⟩
  · unfold save_budget
    split
    · rw [save_budget_map_keys]
      exact hnd
    · rename_i hany
      rw [List.map_append, List.nodup_append]
      refine ⟨hnd, List.nodup_singleton _, ?_⟩
      intro k hk hk1
      simp only [List.map_cons, List.map_nil, List.mem_singleton] at hk1
      subst hk1
      obtain ⟨r, hr, hkr⟩ := List.mem_map.1 hk
      have : keyMatch u m c r = true := by
        rw [keyMatch_iff]
        simpa [budgetKey] using hkr
      exact hany (List.any_eq_true.2 ⟨r, hr, this⟩)
  · intro hany
    unfold save_budget
    rw [if_pos hany]
    refine ⟨List.length_map _ _, ?_⟩
    intro r hr hkey
    obtain ⟨r0, hr0, hfr0⟩ := List.mem_map.1 hr
    by_cases h0 : keyMatch u m c r0 = true
    · rw [if_pos h0] at hfr0
      rw [← hfr0]
    · rw [if_neg h0] at hfr0
      subst hfr0
      exact absurd hkey h0
  · unfold save_budget
    split
    · rename_i hany
      have hany2 : (store.map (fun r =>
          if keyMatch u m c r then { r with amount := a } else r)).any
            (keyMatch u m c) = true := by
        obtain ⟨r, hr, hkr⟩ := List.any_eq_true.1 hany
        refine List.any_eq_true.2 ⟨{ r with amount := a }, ?_, ?_⟩
        · have hmem := List.mem_map_of_mem
            (fun r => if keyMatch u m c r then { r with amount := a } else r)
            hr
          simpa [hkr] using hmem
        · simpa [keyMatch] using hkr
      rw [if_pos hany2, List.map_map]
      apply List.map_congr_left
      intro r _
      by_cases h : keyMatch u m c r = true
      · have h2 : keyMatch u m c { r with amount := a } = true := by
          simpa [keyMatch] using h
        simp [h, h2]
      · simp [h]
    · rename_i hany
      have hnew : keyMatch u m c (⟨u, m, c, a⟩ : BudgetRow) = true := by
        simp [keyMatch]
      have hany2 : (store ++ [(⟨u, m, c, a⟩ : BudgetRow)]).any
          (keyMatch u m c) = true :=
        List.any_eq_true.2
          ⟨_, List.mem_append_right _ (List.mem_singleton.2 rfl), hnew⟩
      rw [if_pos hany2, List.map_append]
      congr 1
      · conv_rhs => rw [← List.map_id store]
        apply List.map_congr_left
        intro r hr
        have hkr : ¬ keyMatch u m c r = true := fun h =>
          hany (List.any_eq_true.2 ⟨r, hr, h⟩)
        simp [hkr]
      · simp [hnew]
  · simp [save_budget, keyMatch]

/-- Witness for C6: a double save of Groceries 50 into a one-row store
equals the single save. -/
theorem c6_save_budget_upsert_witness :
    save_budget
        (save_budget [⟨1, "2024-01", "Housing", 100⟩] 1 "2024-01"
          "Groceries" 50) 1 "2024-01" "Groceries" 50 =
      save_budget [⟨1, "2024-01", "Housing", 100⟩] 1 "2024-01"
        "Groceries" 50 :=
  (c6_save_budget_upsert [⟨1, "2024-01", "Housing", 100⟩] 1 "2024-01"
    "Groceries" 50 (by simp [budgetKey])).2.2.1

/-- C7 counterexample: `update_expense` and `delete_expense` do not surface
a not-found condition — on a store holding only the expense with id 1, the
call for the absent id 2 returns the store unchanged with no error signal,
and its outcome is literally identical to that of a successful update of the
present id 1, so the absent-id case is indistinguishable from a success. -/
theorem c7_counterexample :
    update_expense [⟨1, "Groceries", 10, "t0"⟩] 2 25 =
      [⟨1, "Groceries", 10, "t0"⟩] ∧
    delete_expense [⟨1, "Groceries", 10, "t0"⟩] 2 =
      [⟨1, "Groceries", 10, "t0"⟩] ∧
    update_expense [⟨1, "Groceries", 10, "t0"⟩] 2 25 =
      update_expense [⟨1, "Groceries", 10, "t0"⟩] 1 10 := by
  refine ⟨?_, ?_, ?_⟩ <;> simp [update_expense, delete_expense]

/-- C7 as amended: on an absent id, `update_expense` and `delete_expense`
are silent no-ops — the store is unchanged and no not-found condition
reaches the caller; on a present id (ids being unique), they act on exactly
that single entry: `delete_expense` removes precisely the rows with that id,
and `update_expense` keeps the length, replaces the amount of the targeted
entry, and leaves every other entry in place. -/
theorem c7_mutation_by_id (store : List ExpenseRow) (i : Nat) (a : ℚ) :
    ((∀ r ∈ store, r.id ≠ i) →
      update_expense store i a = store ∧ delete_expense store i = store) ∧
    (∀ r, r ∈ delete_expense store i ↔ r ∈ store ∧ r.id ≠ i) ∧
    ((store.map ExpenseRow.id).Nodup → ∀ r ∈ store, r.id = i →
      (update_expense store i a).length = store.length ∧
      { r with amount := a } ∈ update_expense store i a ∧
      ∀ s ∈ store, s.id ≠ i → s ∈ update_expense store i a) := by
  refine ⟨?_, ?_, ?_⟩
  · intro habs
    constructor
    · unfold update_expense
      conv_rhs => rw [← List.map_id store]
      apply List.map_congr_left
      intro r hr
      simp [habs r hr]
    · unfold delete_expense
      rw [List.filter_eq_self]
      intro r hr
      simpa using habs r hr
  · intro r
    unfold delete_expense
    rw [List.mem_filter]
    simp
  · intro _ r hr hri
    refine ⟨List.length_map _ _, ?_, ?_⟩
    · unfold update_expense
      have hfr : (fun r => if r.id == i then { r with amount := a } else r) r
          = { r with amount := a } := by
        simp [hri]
      rw [← hfr]
      exact List.mem_map_of_mem _ hr
    · intro s hs hsi
      unfold update_expense
      have hfs : (fun r => if r.id == i then { r with amount := a } else r) s
          = s := by
        simp [hsi]
      rw [← hfs]
      exact List.mem_map_of_mem _ hs

/-- Witness for C7 as amended: the absent id 3 leaves a one-row store
unchanged for both operations. -/
theorem c7_mutation_by_id_witness :
    update_expense [⟨1, "Groceries", 10, "t1"⟩] 3 25 =
      [⟨1, "Groceries", 10, "t1"⟩] ∧
    delete_expense [⟨1, "Groceries", 10, "t1"⟩] 3 =
      [⟨1, "Groceries", 10, "t1"⟩] :=
  (c7_mutation_by_id [⟨1, "Groceries", 10, "t1"⟩] 3 25).1 (by simp)

/-- C10: the three bucket limits 0.50·T, 0.30·T, 0.20·T computed by the
allocation report sum exactly to the total budget T in exact arithmetic. -/
theorem c10_limits_partition (T : ℚ) :
    limitNeeds T + limitWants T + limitSavings T = T := by
  unfold limitNeeds limitWants limitSavings
  ring

end BudgetApp
